import Mathlib

/-!
# URL-shortener bootstrap (`Backend Test Submission/src/server.js`)

A shallow embedding of the start-up script: the JavaScript values it computes
from the process environment, the Express middleware stack it registers, the
way Express walks that stack for one request, and the calls it makes to its
collaborators (the logging module, the router module, the listener).
-/

namespace UrlShortener

/-! ## JavaScript values -/

/-- The JavaScript values the script manipulates: `undefined` (an absent
environment variable), strings, and the number literal `3000`. -/
inductive JsValue where
  | undefined : JsValue
  | str (s : String) : JsValue
  | num (n : Nat) : JsValue
  deriving DecidableEq, Repr

/-- JavaScript truthiness: `undefined`, the empty string and `0` are falsy. -/
def JsValue.truthy : JsValue → Bool
  | .undefined => false
  | .str s => s != ""
  | .num n => n != 0

/-- The JavaScript operator `a || b`: `a` when it is truthy, else `b`. -/
def jsOr (a b : JsValue) : JsValue :=
  if a.truthy then a else b

/-- String conversion as done by a template literal placeholder. -/
def JsValue.toStr : JsValue → String
  | .undefined => "undefined"
  | .str s => s
  | .num n => toString n

/-! ## Environment -/

/-- The four entries of `process.env` the script reads, as they stand after
`dotenv.config()`; `none` is an absent variable. -/
structure Env where
  PORT : Option String
  HOST_BASE_URL : Option String
  LOG_BASE_URL : Option String
  LOG_TOKEN : Option String
  deriving DecidableEq, Repr

/-- Reading `process.env.X`: the string, or `undefined` when absent. -/
def envValue : Option String → JsValue
  | none => .undefined
  | some s => .str s

/-- `const port = process.env.PORT || 3000;` -/
def port (env : Env) : JsValue :=
  jsOr (envValue env.PORT) (.num 3000)

/-- `const hostBase = process.env.HOST_BASE_URL || "http://localhost:" + port`
(the right operand is a template literal in the source). -/
def hostBase (env : Env) : JsValue :=
  jsOr (envValue env.HOST_BASE_URL) (.str ("http://localhost:" ++ (port env).toStr))

/-- The text the listen callback prints: the template literal
"URL Shortener running at " followed by `hostBase`. -/
def startupMessage (env : Env) : String :=
  "URL Shortener running at " ++ (hostBase env).toStr

/-! ## The Express middleware stack -/

/-- What a middleware function does with control once invoked. -/
inductive Outcome (ε : Type) where
  /-- It called `next()`. -/
  | next : Outcome ε
  /-- It called `next(err)` or threw `err`. -/
  | fail (e : ε) : Outcome ε
  /-- It ended the response and did not call `next`. -/
  | done : Outcome ε
  deriving DecidableEq, Repr

/-- A middleware function over a world state `σ` (request, response and
whatever the function can affect).  Express tells the two kinds apart by the
function's arity: `(req, res, next)` or `(err, req, res, next)`. -/
inductive Middleware (σ ε : Type) where
  | request (f : σ → σ × Outcome ε) : Middleware σ ε
  | error (f : ε → σ → σ × Outcome ε) : Middleware σ ε

/-- Labels for the four stages `server.js` registers, used to tell them apart
in an execution trace. -/
inductive StageName where
  | jsonParser | requestLogger | router | errorLogger
  deriving DecidableEq, Repr

/-- One entry of the application's stack: the mount path given to `app.use`
and the middleware function. -/
structure Layer (σ ε : Type) where
  name : StageName
  path : String
  handle : Middleware σ ε

/-- A literal mount path without its trailing slash, if it has one. -/
def stripSlash (p : List Char) : List Char :=
  if p.getLast? = some '/' then p.dropLast else p

/-- Whether a layer's mount path matches a request path.  A layer mounted at
"/" matches every request path.  Any other literal mount path matches, letter
case aside, the request paths that start with it (less a trailing slash) and
then end or go on with a slash. -/
def Layer.matchesPath {σ ε : Type} (l : Layer σ ε) (reqPath : String) : Bool :=
  l.path == "/" ||
    (let mount := stripSlash (l.path.data.map Char.toLower)
     let req := reqPath.data.map Char.toLower
     mount.isPrefixOf req &&
       (match req.drop mount.length with
        | [] => true
        | ch :: _ => ch == '/'))

/-- An Express application: its stack of layers in registration order. -/
abbrev App (σ ε : Type) := List (Layer σ ε)

/-- `express()`: an application with an empty stack. -/
def express {σ ε : Type} : App σ ε := []

/-- `app.use(path, fn)`: push a layer at the end of the stack (`app.use(fn)`
is `app.use("/", fn)`). -/
def App.use {σ ε : Type} (app : App σ ε) (path : String) (name : StageName)
    (fn : Middleware σ ε) : App σ ε :=
  app ++ [⟨name, path, fn⟩]

/-- One invocation of a stage: the pending error it was invoked with (`none`
for a request middleware) and what it did with control. -/
structure Event (ε : Type) where
  stage : StageName
  error : Option ε
  outcome : Outcome ε
  deriving DecidableEq, Repr

/-- How the walk over the stack ends: a stage ended the response, or the
stack ran out with no pending error (the framework answers 404) or with one
(the framework answers with the error's status, 500 by default). -/
inductive Final (ε : Type) where
  | responded : Final ε
  | notFound : Final ε
  | unhandled (e : ε) : Final ε
  deriving DecidableEq, Repr

/-- Result of handling one request: the stage invocations in order, the
final world state and how the walk ended. -/
structure Run (σ ε : Type) where
  trace : List (Event ε)
  world : σ
  final : Final ε

/-- Express's `next` loop.  With no pending error the next matching request
middleware runs and error middleware is skipped; with a pending error the
next matching error middleware runs and request middleware is skipped. -/
def dispatch {σ ε : Type} (reqPath : String) :
    List (Layer σ ε) → Option ε → σ → Run σ ε
  | [], none, s => ⟨[], s, .notFound⟩
  | [], some e, s => ⟨[], s, .unhandled e⟩
  | l :: ls, pending, s =>
    if l.matchesPath reqPath then
      match l.handle, pending with
      | .request f, none =>
        match f s with
        | (s1, .next) =>
          let r := dispatch reqPath ls none s1
          { r with trace := ⟨l.name, none, .next⟩ :: r.trace }
        | (s1, .fail e) =>
          let r := dispatch reqPath ls (some e) s1
          { r with trace := ⟨l.name, none, .fail e⟩ :: r.trace }
        | (s1, .done) => ⟨[⟨l.name, none, .done⟩], s1, .responded⟩
      | .error f, some e =>
        match f e s with
        | (s1, .next) =>
          let r := dispatch reqPath ls none s1
          { r with trace := ⟨l.name, some e, .next⟩ :: r.trace }
        | (s1, .fail e1) =>
          let r := dispatch reqPath ls (some e1) s1
          { r with trace := ⟨l.name, some e, .fail e1⟩ :: r.trace }
        | (s1, .done) => ⟨[⟨l.name, some e, .done⟩], s1, .responded⟩
      | .request _, some e => dispatch reqPath ls (some e) s
      | .error _, none => dispatch reqPath ls none s
    else dispatch reqPath ls pending s

/-- Handling one request: walk the stack from its first layer with no
pending error. -/
def App.handleRequest {σ ε : Type} (app : App σ ε) (reqPath : String) (s : σ) : Run σ ε :=
  dispatch reqPath app none s

/-- The stages invoked, in order. -/
def Run.stages {σ ε : Type} (r : Run σ ε) : List StageName :=
  r.trace.map Event.stage

/-! ## Collaborators and the start-up script -/

/-- The object literal handed to `new Logger`. -/
structure LoggerConfig where
  baseUrl : JsValue
  token : JsValue
  deriving DecidableEq, Repr

/-- Modelled from the spec: the signatures of the functions `server.js` calls
and does not define; the logging module and the router module are absent.
Over a logger type `L` these are the `Logger` constructor, `requestLogger`
and `errorLogger` of the logging module, `routes` of the router module, and
the middleware `express.json()` returns.  Each call into the two modules may
throw.  `requestLogger` and `routes` return request middleware (a stage "that
runs for every inbound request", "a request-handling component") and
`errorLogger` returns error middleware (a stage that "only activates when a
downstream stage raises an unrecovered error").  What the functions do is left
open: every theorem over `Collaborators` holds for all behaviours. -/
structure Collaborators (L σ ε : Type) where
  newLogger : LoggerConfig → Except ε L
  json : σ → σ × Outcome ε
  requestLogger : L → String → Except ε (σ → σ × Outcome ε)
  routes : L → JsValue → Except ε (σ → σ × Outcome ε)
  errorLogger : L → String → Except ε (ε → σ → σ × Outcome ε)

/-- A reference to an object on the heap: its address and the object.  The
address tells two objects apart even when their contents are equal. -/
structure Ref (L : Type) where
  addr : Nat
  obj : L
  deriving DecidableEq, Repr

/-- A call into the logging or router module, over the type `R` of logger
references: a construction with the reference it returned, or a factory call
with the logger reference it was handed. -/
inductive Call (R : Type) where
  | newLogger (cfg : LoggerConfig) (result : R) : Call R
  | requestLogger (logger : R) (tag : String) : Call R
  | routes (logger : R) (hostBase : JsValue) : Call R
  | errorLogger (logger : R) (tag : String) : Call R
  deriving DecidableEq, Repr

/-- Whether a module call is a `new Logger(...)`. -/
def Call.isNewLogger {R : Type} : Call R → Bool
  | .newLogger _ _ => true
  | _ => false

/-- Whether a module call is a `routes(...)`. -/
def Call.isRoutes {R : Type} : Call R → Bool
  | .routes _ _ => true
  | _ => false

/-- What a completed start-up leaves behind: the module calls made (in
program order), the application with its stack, the port handed to
`app.listen`, and the line the listen callback prints. -/
structure Boot (L σ ε : Type) where
  calls : List (Call (Ref L))
  app : App σ ε
  listenPort : JsValue
  printed : String

/-- A start-up script: the calls it makes, each followed by what the script
does with the value returned, down to the final `app.listen(port, callback)`.
A script holds loggers by reference only and obtains one only from a
`new Logger` call. -/
inductive Script (L σ ε : Type) where
  | expressJson (k : (σ → σ × Outcome ε) → Script L σ ε) : Script L σ ε
  | newLogger (cfg : LoggerConfig) (k : Ref L → Script L σ ε) : Script L σ ε
  | requestLogger (logger : Ref L) (tag : String)
      (k : (σ → σ × Outcome ε) → Script L σ ε) : Script L σ ε
  | routes (logger : Ref L) (hostBase : JsValue)
      (k : (σ → σ × Outcome ε) → Script L σ ε) : Script L σ ε
  | errorLogger (logger : Ref L) (tag : String)
      (k : (ε → σ → σ × Outcome ε) → Script L σ ε) : Script L σ ε
  | listen (app : App σ ε) (port : JsValue) (printed : String) : Script L σ ε

/-- Running a script against the collaborators, from the calls made so far.
Every module call is appended to the call log as it is made.  A construction
puts a new object on the heap, at the address given by the number of loggers
constructed before it; a factory receives the object its logger reference
points to.  A throwing call aborts start-up (`Except.error`); otherwise the
script reaches `app.listen`. -/
def Script.run {L σ ε : Type} (c : Collaborators L σ ε) :
    Script L σ ε → List (Call (Ref L)) → Except ε (Boot L σ ε)
  | .expressJson k, log => (k c.json).run c log
  | .newLogger cfg k, log =>
    match c.newLogger cfg with
    | .ok o =>
      let r : Ref L := ⟨(log.filter Call.isNewLogger).length, o⟩
      (k r).run c (log ++ [.newLogger cfg r])
    | .error e => .error e
  | .requestLogger logger tag k, log =>
    match c.requestLogger logger.obj tag with
    | .ok f => (k f).run c (log ++ [.requestLogger logger tag])
    | .error e => .error e
  | .routes logger hb k, log =>
    match c.routes logger.obj hb with
    | .ok f => (k f).run c (log ++ [.routes logger hb])
    | .error e => .error e
  | .errorLogger logger tag k, log =>
    match c.errorLogger logger.obj tag with
    | .ok f => (k f).run c (log ++ [.errorLogger logger tag])
    | .error e => .error e
  | .listen app p printed, log =>
    .ok { calls := log, app := app, listenPort := p, printed := printed }

/-- The script `server.js`, top to bottom. -/
def script {L σ ε : Type} (env : Env) : Script L σ ε :=
  let app : App σ ε := express
  .expressJson fun json =>
  let app := app.use "/" .jsonParser (.request json)
  .newLogger { baseUrl := envValue env.LOG_BASE_URL, token := envValue env.LOG_TOKEN }
    fun logger =>
  .requestLogger logger "url-shortener" fun reqLog =>
  let app := app.use "/" .requestLogger (.request reqLog)
  let port := port env
  let hostBase := hostBase env
  .routes logger hostBase fun router =>
  let app := app.use "/" .router (.request router)
  .errorLogger logger "url-shortener" fun errLog =>
  let app := app.use "/" .errorLogger (.error errLog)
  .listen app port ("URL Shortener running at " ++ hostBase.toStr)

/-- Start-up: `server.js` run against the collaborators, from an empty call
log. -/
def server {L σ ε : Type} (c : Collaborators L σ ε) (env : Env) : Except ε (Boot L σ ε) :=
  (script env).run c []

/-- The stack `server.js` builds, written out: the four layers in
registration order, each mounted at "/". -/
def pipeline {σ ε : Type} (json reqLog router : σ → σ × Outcome ε)
    (errLog : ε → σ → σ × Outcome ε) : App σ ε :=
  [⟨.jsonParser, "/", .request json⟩, ⟨.requestLogger, "/", .request reqLog⟩,
   ⟨.router, "/", .request router⟩, ⟨.errorLogger, "/", .error errLog⟩]

/-- Whether a middleware function is error middleware (four parameters). -/
def Middleware.isError {σ ε : Type} : Middleware σ ε → Bool
  | .request _ => false
  | .error _ => true

/-- The port as the interface table words it: the value of `PORT` when the
variable is set, `3000` when it is unset. -/
def statedPort (env : Env) : JsValue :=
  match env.PORT with
  | some p => .str p
  | none => .num 3000

/-- The port the script resolves, case by case: a non-empty `PORT` string as
it stands, `3000` when `PORT` is unset or empty. -/
def resolvedPort (env : Env) : JsValue :=
  match env.PORT with
  | some p => if p = "" then .num 3000 else .str p
  | none => .num 3000

/-! ## The absent modules, after the specification -/

/-- A structured log record: owning-service tag, severity, message. -/
structure LogRecord where
  package : String
  level : String
  message : String
  deriving DecidableEq, Repr

/-- The world one request runs in: whether its JSON body fails to parse, and
the log records transmitted so far. -/
structure World where
  bodyMalformed : Bool
  records : List LogRecord
  deriving DecidableEq, Repr

/-- Modelled from the spec: the `Logger` class of the logging module, which is
absent.  It is "configured once at process start" with the collector base URL
and the authentication token, and the "absence of either must not crash the
process": a logger keeps the two values as given. -/
structure Logger where
  baseUrl : JsValue
  token : JsValue
  deriving DecidableEq, Repr

/-- Modelled from the spec: the constructor `new Logger({ baseUrl, token })`
of the absent logging module; it accepts absent values and never throws. -/
def Logger.new (cfg : LoggerConfig) : Except String Logger :=
  .ok ⟨cfg.baseUrl, cfg.token⟩

/-- Modelled from the spec: `requestLogger(logger, tag)` of the absent logging
module; the stage "emits one request received record before handing control
onward". -/
def requestLogger (_logger : Logger) (tag : String) :
    Except String (World → World × Outcome String) :=
  .ok fun w => ({ w with records := w.records ++ [⟨tag, "info", "request received"⟩] }, .next)

/-- Modelled from the spec: `errorLogger(logger, tag)` of the absent logging
module; the stage "emits one error record, then propagates" the error
unchanged. -/
def errorLogger (_logger : Logger) (tag : String) :
    Except String (String → World → World × Outcome String) :=
  .ok fun e w => ({ w with records := w.records ++ [⟨tag, "error", e⟩] }, .fail e)

/-- Modelled from the spec: `routes(logger, hostBase)` of the absent router
module "returns a request-handling component"; the component's own logic is
out of the specification's scope and is a parameter here. -/
def routes (component : World → World × Outcome String) (_logger : Logger)
    (_hostBase : JsValue) : Except String (World → World × Outcome String) :=
  .ok component

/-- The collaborators as the specification describes them, over a given body
parser and router component. -/
def specCollaborators (json component : World → World × Outcome String) :
    Collaborators Logger World String :=
  { newLogger := Logger.new
    json := json
    requestLogger := requestLogger
    routes := routes component
    errorLogger := errorLogger }

/-! ## Sample inputs -/

/-- A body parser in the manner of `express.json()`: it rejects a request
whose JSON body does not parse and passes every other request on. -/
def sampleJson (w : World) : World × Outcome String :=
  if w.bodyMalformed then (w, .fail "SyntaxError") else (w, .next)

/-- A router component that answers every request it receives. -/
def sampleRouter (w : World) : World × Outcome String :=
  (w, .done)

/-- Sample collaborators: the specification's, over the sample body parser
and router component. -/
def sampleCollaborators : Collaborators Logger World String :=
  specCollaborators sampleJson sampleRouter

/-- An environment with none of the four variables. -/
def emptyEnv : Env := ⟨none, none, none, none⟩

/-- What start-up leaves behind in the empty environment. -/
def emptyBoot : Boot Logger World String :=
  { calls := [.newLogger ⟨.undefined, .undefined⟩ ⟨0, ⟨.undefined, .undefined⟩⟩,
              .requestLogger ⟨0, ⟨.undefined, .undefined⟩⟩ "url-shortener",
              .routes ⟨0, ⟨.undefined, .undefined⟩⟩ (.str "http://localhost:3000"),
              .errorLogger ⟨0, ⟨.undefined, .undefined⟩⟩ "url-shortener"]
    app := pipeline sampleJson
      (fun w => ({ w with records := w.records ++ [⟨"url-shortener", "info", "request received"⟩] }, .next))
      sampleRouter
      (fun e w => ({ w with records := w.records ++ [⟨"url-shortener", "error", e⟩] }, .fail e))
    listenPort := .num 3000
    printed := "URL Shortener running at http://localhost:3000" }

/-- An environment that sets the two logging variables and a port. -/
def loggedEnv : Env := ⟨some "8080", none, some "http://logs.example", some "secret"⟩

/-- What start-up leaves behind in `loggedEnv`. -/
def loggedBoot : Boot Logger World String :=
  { emptyBoot with
    calls := [.newLogger ⟨.str "http://logs.example", .str "secret"⟩
                ⟨0, ⟨.str "http://logs.example", .str "secret"⟩⟩,
              .requestLogger ⟨0, ⟨.str "http://logs.example", .str "secret"⟩⟩ "url-shortener",
              .routes ⟨0, ⟨.str "http://logs.example", .str "secret"⟩⟩
                (.str "http://localhost:8080"),
              .errorLogger ⟨0, ⟨.str "http://logs.example", .str "secret"⟩⟩ "url-shortener"]
    listenPort := .str "8080"
    printed := "URL Shortener running at http://localhost:8080" }

/-- An environment that sets `LOG_BASE_URL` to the empty string and nothing
else. -/
def emptyLogUrlEnv : Env := ⟨none, none, some "", none⟩

/-- A request with a well-formed body, before any record is transmitted. -/
def goodRequest : World := ⟨false, []⟩

/-- A request whose JSON body does not parse. -/
def badRequest : World := ⟨true, []⟩

/-! ## Basic facts -/

/-- A completed start-up is exactly one in which the four module calls
returned, and its result is then determined by what they returned. -/
theorem server_eq_ok_iff {L σ ε : Type} (c : Collaborators L σ ε) (env : Env)
    (b : Boot L σ ε) :
    server c env = .ok b ↔
      ∃ lg rl rt el,
        c.newLogger ⟨envValue env.LOG_BASE_URL, envValue env.LOG_TOKEN⟩ = .ok lg ∧
        c.requestLogger lg "url-shortener" = .ok rl ∧
        c.routes lg (hostBase env) = .ok rt ∧
        c.errorLogger lg "url-shortener" = .ok el ∧
        b = { calls := [.newLogger ⟨envValue env.LOG_BASE_URL, envValue env.LOG_TOKEN⟩ ⟨0, lg⟩,
                        .requestLogger ⟨0, lg⟩ "url-shortener",
                        .routes ⟨0, lg⟩ (hostBase env),
                        .errorLogger ⟨0, lg⟩ "url-shortener"]
              app := pipeline c.json rl rt el
              listenPort := port env
              printed := startupMessage env } := by
  simp only [server, script, Script.run]
  cases h1 : c.newLogger ⟨envValue env.LOG_BASE_URL, envValue env.LOG_TOKEN⟩ with
  | error e => simp
  | ok lg =>
    cases h2 : c.requestLogger lg "url-shortener" with
    | error e => simp [h2]
    | ok rl =>
      cases h3 : c.routes lg (hostBase env) with
      | error e => simp [h2, h3]
      | ok rt =>
        cases h4 : c.errorLogger lg "url-shortener" with
        | error e => simp [h2, h3, h4]
        | ok el =>
          simp only [h2, h3, h4]
          constructor
          · intro h
            exact ⟨lg, rl, rt, el, rfl, h2, h3, h4, (Except.ok.inj h).symm⟩
          · rintro ⟨lg1, rl1, rt1, el1, e1, e2, e3, e4, hb⟩
            cases e1
            rw [h2] at e2
            cases e2
            rw [h3] at e3
            cases e3
            rw [h4] at e4
            cases e4
            rw [hb]
            rfl

/-- Every layer of the registered stack matches every request path. -/
theorem matchesPath_root {σ ε : Type} (n : StageName) (m : Middleware σ ε) (reqPath : String) :
    (Layer.mk n "/" m).matchesPath reqPath = true := by
  simp [Layer.matchesPath]

/-- The seven shapes a walk over the registered stack can take, by what the
body parser, the request logger and the router do with control. -/
theorem pipeline_trace_cases {σ ε : Type} (json reqLog router : σ → σ × Outcome ε)
    (errLog : ε → σ → σ × Outcome ε) (reqPath : String) (s : σ) :
    let t := ((pipeline json reqLog router errLog).handleRequest reqPath s).trace
    ((json s).2 = .done ∧ t = [⟨.jsonParser, none, .done⟩]) ∨
    (∃ e o, (json s).2 = .fail e ∧
      t = [⟨.jsonParser, none, .fail e⟩, ⟨.errorLogger, some e, o⟩]) ∨
    ((json s).2 = .next ∧
      t = [⟨.jsonParser, none, .next⟩, ⟨.requestLogger, none, .done⟩]) ∨
    (∃ e o, (json s).2 = .next ∧
      t = [⟨.jsonParser, none, .next⟩, ⟨.requestLogger, none, .fail e⟩,
           ⟨.errorLogger, some e, o⟩]) ∨
    ((json s).2 = .next ∧
      t = [⟨.jsonParser, none, .next⟩, ⟨.requestLogger, none, .next⟩,
           ⟨.router, none, .done⟩]) ∨
    (∃ e o, (json s).2 = .next ∧
      t = [⟨.jsonParser, none, .next⟩, ⟨.requestLogger, none, .next⟩,
           ⟨.router, none, .fail e⟩, ⟨.errorLogger, some e, o⟩]) ∨
    ((json s).2 = .next ∧
      t = [⟨.jsonParser, none, .next⟩, ⟨.requestLogger, none, .next⟩,
           ⟨.router, none, .next⟩]) := by
  intro t
  rcases h1 : json s with ⟨s1, o1⟩
  cases o1 with
  | done =>
    left
    simp [t, pipeline, App.handleRequest, dispatch, matchesPath_root, h1]
  | fail e =>
    right; left
    refine ⟨e, (errLog e s1).2, rfl, ?_⟩
    rcases h4 : errLog e s1 with ⟨s4, o4⟩
    cases o4 <;>
      simp [t, pipeline, App.handleRequest, dispatch, matchesPath_root, h1, h4]
  | next =>
    right; right
    rcases h2 : reqLog s1 with ⟨s2, o2⟩
    cases o2 with
    | done =>
      left
      simp [t, pipeline, App.handleRequest, dispatch, matchesPath_root, h1, h2]
    | fail e =>
      right; left
      refine ⟨e, (errLog e s2).2, rfl, ?_⟩
      rcases h4 : errLog e s2 with ⟨s4, o4⟩
      cases o4 <;>
        simp [t, pipeline, App.handleRequest, dispatch, matchesPath_root, h1, h2, h4]
    | next =>
      right; right
      rcases h3 : router s2 with ⟨s3, o3⟩
      cases o3 with
      | done =>
        left
        simp [t, pipeline, App.handleRequest, dispatch, matchesPath_root, h1, h2, h3]
      | fail e =>
        right; left
        refine ⟨e, (errLog e s3).2, rfl, ?_⟩
        rcases h4 : errLog e s3 with ⟨s4, o4⟩
        cases o4 <;>
          simp [t, pipeline, App.handleRequest, dispatch, matchesPath_root, h1, h2, h3, h4]
      | next =>
        right; right
        simp [t, pipeline, App.handleRequest, dispatch, matchesPath_root, h1, h2, h3]

/-- The port the script computes is the resolved port. -/
theorem port_eq_resolvedPort (env : Env) : port env = resolvedPort env := by
  cases env with
  | mk p h lb lt =>
    cases p with
    | none => rfl
    | some v =>
      by_cases hv : v = "" <;>
        simp [port, resolvedPort, jsOr, envValue, JsValue.truthy, hv]

/-- With `HOST_BASE_URL` unset or empty the host base is the default. -/
theorem hostBase_default (env : Env)
    (h : env.HOST_BASE_URL = none ∨ env.HOST_BASE_URL = some "") :
    hostBase env = .str ("http://localhost:" ++ (resolvedPort env).toStr) := by
  rcases h with h | h <;>
    simp [hostBase, jsOr, envValue, JsValue.truthy, h, port_eq_resolvedPort]

/-- With a non-empty `HOST_BASE_URL` the host base is that string. -/
theorem hostBase_given (env : Env) (h : String) (hne : h ≠ "")
    (hset : env.HOST_BASE_URL = some h) : hostBase env = .str h := by
  simp [hostBase, jsOr, envValue, JsValue.truthy, hset, hne]

/-! ## Configuration claims -/

/-- C4, as stated, fails: with `HOST_BASE_URL` unset and `PORT` set to the
empty string, the host base is "http://localhost:3000" and the start-up line
reports it, not "http://localhost:" followed by the value of `PORT`. -/
theorem hostBase_default_not_statedPort :
    let env : Env := ⟨some "", none, none, none⟩
    env.HOST_BASE_URL = none ∧
    hostBase env = .str "http://localhost:3000" ∧
    startupMessage env = "URL Shortener running at http://localhost:3000" ∧
    hostBase env ≠ .str ("http://localhost:" ++ (statedPort env).toStr) := by
  decide

/-- C4, amended: when `HOST_BASE_URL` is unset, the host base is exactly
"http://localhost:" followed by the resolved port (the `PORT` string when it
is set and non-empty, else 3000); that string is what the router receives and
what the start-up line reports after "URL Shortener running at ". -/
theorem hostBase_default_when_unset {L σ ε : Type} (c : Collaborators L σ ε) (env : Env)
    (b : Boot L σ ε) (hb : server c env = .ok b) (hunset : env.HOST_BASE_URL = none) :
    hostBase env = .str ("http://localhost:" ++ (resolvedPort env).toStr) ∧
    (resolvedPort env).toStr =
      (match env.PORT with
       | some p => if p = "" then "3000" else p
       | none => "3000") ∧
    (∃ lg, b.calls.filter Call.isRoutes =
      [.routes lg (.str ("http://localhost:" ++ (resolvedPort env).toStr))]) ∧
    b.printed =
      "URL Shortener running at " ++ ("http://localhost:" ++ (resolvedPort env).toStr) := by
  have hh := hostBase_default env (Or.inl hunset)
  obtain ⟨lg, rl, rt, el, -, -, -, -, rfl⟩ := (server_eq_ok_iff c env b).1 hb
  refine ⟨hh, ?_, ⟨⟨0, lg⟩, ?_⟩, ?_⟩
  · cases env with
    | mk p h lb lt =>
      cases p with
      | none => rfl
      | some v =>
        by_cases hv : v = ""
        · subst hv
          rfl
        · simp [resolvedPort, JsValue.toStr, hv]
  · simp [Call.isRoutes, hh]
  · simp [startupMessage, hh, JsValue.toStr]

/-- The amended C4 at the empty environment. -/
theorem hostBase_default_when_unset_witness :
    server sampleCollaborators emptyEnv = .ok emptyBoot ∧
    emptyEnv.HOST_BASE_URL = none ∧
    hostBase emptyEnv = .str "http://localhost:3000" ∧
    emptyBoot.printed = "URL Shortener running at http://localhost:3000" :=
  have h := hostBase_default_when_unset sampleCollaborators emptyEnv emptyBoot rfl rfl
  ⟨rfl, rfl, h.1, h.2.2.2⟩

/-- C5, as stated, fails: with `PORT` set to the empty string the listener is
handed the number 3000, not the value of `PORT`. -/
theorem listenPort_not_statedPort :
    let env : Env := ⟨some "", none, none, none⟩
    (∃ b, server sampleCollaborators env = .ok b ∧ b.listenPort = .num 3000) ∧
    statedPort env = .str "" ∧
    port env ≠ statedPort env :=
  ⟨⟨emptyBoot, rfl, rfl⟩, rfl, by decide⟩

/-- C5, amended: the port handed to the listener is the `PORT` string when
`PORT` is set to a non-empty string, and the number 3000 when `PORT` is unset
or empty. -/
theorem listenPort_resolved {L σ ε : Type} (c : Collaborators L σ ε) (env : Env)
    (b : Boot L σ ε) (hb : server c env = .ok b) :
    b.listenPort =
      (match env.PORT with
       | some p => if p = "" then .num 3000 else .str p
       | none => .num 3000) := by
  obtain ⟨lg, rl, rt, el, -, -, -, -, rfl⟩ := (server_eq_ok_iff c env b).1 hb
  exact port_eq_resolvedPort env

/-- The amended C5 at the empty environment. -/
theorem listenPort_resolved_witness :
    server sampleCollaborators emptyEnv = .ok emptyBoot ∧ emptyBoot.listenPort = .num 3000 :=
  ⟨rfl, listenPort_resolved sampleCollaborators emptyEnv emptyBoot rfl⟩

/-- C9, as stated, fails: not every environment variable set to the empty
string is treated like an unset one.  With `LOG_BASE_URL` empty the logger is
constructed with the empty string as its base URL, with `LOG_BASE_URL` unset
it is constructed with `undefined`, and the two start-ups differ. -/
theorem empty_log_url_not_like_unset :
    (∃ b, server sampleCollaborators emptyLogUrlEnv = .ok b ∧
      b.calls.head? = some (.newLogger ⟨.str "", .undefined⟩ ⟨0, ⟨.str "", .undefined⟩⟩)) ∧
    (∃ b, server sampleCollaborators emptyEnv = .ok b ∧
      b.calls.head? =
        some (.newLogger ⟨.undefined, .undefined⟩ ⟨0, ⟨.undefined, .undefined⟩⟩)) ∧
    server sampleCollaborators emptyLogUrlEnv ≠ server sampleCollaborators emptyEnv := by
  refine ⟨⟨_, rfl, rfl⟩, ⟨_, rfl, rfl⟩, ?_⟩
  intro h
  have hc := congrArg
    (fun r : Except String (Boot Logger World String) =>
      match r with
      | .ok b => b.calls
      | .error _ => []) h
  exact absurd hc (by decide)

/-- C9, amended: `PORT` or `HOST_BASE_URL` set to the empty string is treated
exactly like an unset one (the whole start-up is the same; the port is 3000,
the host base is the default), and a non-empty `PORT` string is used as it
stands, unparsed, both as the listen port and inside the default host base. -/
theorem empty_like_unset_and_port_verbatim {L σ ε : Type} (c : Collaborators L σ ε)
    (env : Env) :
    (port { env with PORT := some "" } = .num 3000 ∧
     server c { env with PORT := some "" } = server c { env with PORT := none }) ∧
    (hostBase { env with HOST_BASE_URL := some "" }
        = .str ("http://localhost:" ++ (port env).toStr) ∧
     server c { env with HOST_BASE_URL := some "" }
        = server c { env with HOST_BASE_URL := none }) ∧
    (∀ p : String, p ≠ "" →
      port { env with PORT := some p } = .str p ∧
      hostBase { env with PORT := some p, HOST_BASE_URL := none }
        = .str ("http://localhost:" ++ p) ∧
      hostBase { env with PORT := some p, HOST_BASE_URL := some "" }
        = .str ("http://localhost:" ++ p) ∧
      ∀ b, server c { env with PORT := some p } = .ok b → b.listenPort = .str p) := by
  have hp : port { env with PORT := some "" } = port { env with PORT := none } := rfl
  have hh : hostBase { env with PORT := some "" } = hostBase { env with PORT := none } := rfl
  have hh2 : hostBase { env with HOST_BASE_URL := some "" }
      = hostBase { env with HOST_BASE_URL := none } := rfl
  refine ⟨⟨rfl, ?_⟩, ⟨rfl, ?_⟩, ?_⟩
  · simp only [server, script, hp, hh]
  · simp only [server, script, hh2]
    rfl
  · intro p hne
    have hport : ∀ e : Env, e.PORT = some p → port e = .str p := by
      intro e he
      simp [port, jsOr, envValue, JsValue.truthy, hne, he]
    refine ⟨hport _ rfl, ?_, ?_, ?_⟩
    · simp [hostBase, jsOr, envValue, JsValue.truthy, hport, JsValue.toStr]
    · simp [hostBase, jsOr, envValue, JsValue.truthy, hport, JsValue.toStr]
    · intro b hb
      obtain ⟨lg, rl, rt, el, -, -, -, -, rfl⟩ := (server_eq_ok_iff c _ b).1 hb
      exact hport _ rfl

/-- The amended C9 at concrete inputs: `PORT` empty, and `PORT` set to "0" and to "abc". -/
theorem empty_like_unset_and_port_verbatim_witness :
    port ⟨some "", none, none, none⟩ = .num 3000 ∧
    port ⟨some "0", none, none, none⟩ = .str "0" ∧
    hostBase ⟨some "abc", none, none, none⟩ = .str "http://localhost:abc" :=
  have h := empty_like_unset_and_port_verbatim sampleCollaborators emptyEnv
  ⟨h.1.1, (h.2.2 "0" (by decide)).1, (h.2.2 "abc" (by decide)).2.1⟩

/-- C10: a non-empty `HOST_BASE_URL` is the host base as it stands, whatever
`PORT` is: two environments agreeing on it hand the router the same host base
and print the same start-up line, and the advertised base may name a port
other than the one handed to the listener. -/
theorem hostBase_independent_of_port {L σ ε : Type} (c : Collaborators L σ ε)
    (env1 env2 : Env) (h : String) (hne : h ≠ "")
    (h1 : env1.HOST_BASE_URL = some h) (h2 : env2.HOST_BASE_URL = some h) :
    hostBase env1 = .str h ∧ hostBase env2 = .str h ∧
    startupMessage env1 = "URL Shortener running at " ++ h ∧
    startupMessage env2 = "URL Shortener running at " ++ h ∧
    (∀ b1 b2, server c env1 = .ok b1 → server c env2 = .ok b2 →
      b1.printed = b2.printed ∧
      (∃ lg1, b1.calls.filter Call.isRoutes = [.routes lg1 (.str h)]) ∧
      (∃ lg2, b2.calls.filter Call.isRoutes = [.routes lg2 (.str h)])) ∧
    (∃ e : Env, hostBase e = .str "http://localhost:3000" ∧ port e = .str "8080") := by
  have hb1 := hostBase_given env1 h hne h1
  have hb2 := hostBase_given env2 h hne h2
  refine ⟨hb1, hb2, ?_, ?_, ?_, ⟨⟨some "8080", some "http://localhost:3000", none, none⟩, ?_⟩⟩
  · simp [startupMessage, hb1, JsValue.toStr]
  · simp [startupMessage, hb2, JsValue.toStr]
  · intro b1 b2 hs1 hs2
    obtain ⟨lg1, rl1, rt1, el1, -, -, -, -, rfl⟩ := (server_eq_ok_iff c env1 b1).1 hs1
    obtain ⟨lg2, rl2, rt2, el2, -, -, -, -, rfl⟩ := (server_eq_ok_iff c env2 b2).1 hs2
    refine ⟨?_, ⟨⟨0, lg1⟩, ?_⟩, ⟨⟨0, lg2⟩, ?_⟩⟩
    · simp [startupMessage, hb1, hb2]
    · simp [Call.isRoutes, hb1]
    · simp [Call.isRoutes, hb2]
  · decide

/-- C10 at two environments that differ in `PORT` only. -/
theorem hostBase_independent_of_port_witness :
    hostBase ⟨some "3000", some "https://sho.rt", none, none⟩ = .str "https://sho.rt" ∧
    hostBase ⟨some "8080", some "https://sho.rt", none, none⟩ = .str "https://sho.rt" :=
  have h := hostBase_independent_of_port sampleCollaborators
    ⟨some "3000", some "https://sho.rt", none, none⟩
    ⟨some "8080", some "https://sho.rt", none, none⟩ "https://sho.rt" (by decide) rfl rfl
  ⟨h.1, h.2.1⟩

/-- The host base is always a string. -/
theorem hostBase_isStr (env : Env) : ∃ h, hostBase env = .str h := by
  cases hv : env.HOST_BASE_URL with
  | none => exact ⟨_, hostBase_default env (Or.inl hv)⟩
  | some v =>
    by_cases hne : v = ""
    · exact ⟨_, hostBase_default env (Or.inr (by rw [hv, hne]))⟩
    · exact ⟨v, hostBase_given env v hne hv⟩

/-! ## Wiring claims -/

/-- C6: the router is built by the one call `routes(logger, hostBase)`, its
result is the one router layer and is mounted at "/", and the host base it
receives is the string the start-up line reports. -/
theorem router_built_from_logger_and_hostBase {L σ ε : Type} (c : Collaborators L σ ε)
    (env : Env) (b : Boot L σ ε) (hb : server c env = .ok b) :
    ∃ lg h rt,
      c.newLogger ⟨envValue env.LOG_BASE_URL, envValue env.LOG_TOKEN⟩ = .ok lg ∧
      hostBase env = .str h ∧
      b.calls.filter Call.isRoutes = [.routes ⟨0, lg⟩ (.str h)] ∧
      c.routes lg (.str h) = .ok rt ∧
      (b.app.map Layer.name).count .router = 1 ∧
      (∀ l ∈ b.app, l.name = .router → l.path = "/" ∧ l.handle = .request rt) ∧
      b.printed = "URL Shortener running at " ++ h := by
  obtain ⟨lg, rl, rt, el, h1, -, h3, -, rfl⟩ := (server_eq_ok_iff c env b).1 hb
  obtain ⟨h, hh⟩ := hostBase_isStr env
  refine ⟨lg, h, rt, h1, hh, ?_, ?_, ?_, ?_, ?_⟩
  · simp [Call.isRoutes, hh]
  · rw [← hh]
    exact h3
  · simp [pipeline]
  · intro l hl hn
    simp only [pipeline, List.mem_cons, List.mem_singleton, List.not_mem_nil, or_false] at hl
    rcases hl with rfl | rfl | rfl | rfl <;> simp at hn ⊢
  · simp [startupMessage, hh, JsValue.toStr]

/-- C6 at the empty environment. -/
theorem router_built_from_logger_and_hostBase_witness :
    server sampleCollaborators emptyEnv = .ok emptyBoot ∧
    ∃ lg h rt,
      sampleCollaborators.newLogger
        ⟨envValue emptyEnv.LOG_BASE_URL, envValue emptyEnv.LOG_TOKEN⟩ = .ok lg ∧
      hostBase emptyEnv = .str h ∧
      emptyBoot.calls.filter Call.isRoutes = [.routes ⟨0, lg⟩ (.str h)] ∧
      sampleCollaborators.routes lg (.str h) = .ok rt ∧
      (emptyBoot.app.map Layer.name).count .router = 1 ∧
      (∀ l ∈ emptyBoot.app, l.name = .router → l.path = "/" ∧ l.handle = .request rt) ∧
      emptyBoot.printed = "URL Shortener running at " ++ h :=
  ⟨rfl, router_built_from_logger_and_hostBase sampleCollaborators emptyEnv emptyBoot rfl⟩

/-- C7: start-up constructs exactly one logger, from `LOG_BASE_URL` and
`LOG_TOKEN` as they stand in the environment (absent gives `undefined`), and
the reference that construction returned is the one handed to
`requestLogger`, to `routes` and to `errorLogger`; the three stages in the
stack are what those three calls returned. -/
theorem single_logger_threaded {L σ ε : Type} (c : Collaborators L σ ε)
    (env : Env) (b : Boot L σ ε) (hb : server c env = .ok b) :
    ∃ cfg lg rl rt el,
      cfg.baseUrl = (match env.LOG_BASE_URL with | some u => .str u | none => .undefined) ∧
      cfg.token = (match env.LOG_TOKEN with | some t => .str t | none => .undefined) ∧
      c.newLogger cfg = .ok lg.obj ∧
      b.calls.filter Call.isNewLogger = [.newLogger cfg lg] ∧
      (∀ call ∈ b.calls, ∀ r,
        (∃ k, call = .newLogger k r) ∨ (∃ tag, call = .requestLogger r tag) ∨
        (∃ base, call = .routes r base) ∨ (∃ tag, call = .errorLogger r tag) → r = lg) ∧
      b.calls = [.newLogger cfg lg, .requestLogger lg "url-shortener",
                 .routes lg (hostBase env), .errorLogger lg "url-shortener"] ∧
      c.requestLogger lg.obj "url-shortener" = .ok rl ∧
      c.routes lg.obj (hostBase env) = .ok rt ∧
      c.errorLogger lg.obj "url-shortener" = .ok el ∧
      b.app = [⟨.jsonParser, "/", .request c.json⟩, ⟨.requestLogger, "/", .request rl⟩,
               ⟨.router, "/", .request rt⟩, ⟨.errorLogger, "/", .error el⟩] := by
  obtain ⟨lg, rl, rt, el, h1, h2, h3, h4, rfl⟩ := (server_eq_ok_iff c env b).1 hb
  refine ⟨⟨envValue env.LOG_BASE_URL, envValue env.LOG_TOKEN⟩, ⟨0, lg⟩, rl, rt, el,
    ?_, ?_, h1, by simp [Call.isNewLogger], ?_, rfl, h2, h3, h4, rfl⟩
  · cases env.LOG_BASE_URL <;> rfl
  · cases env.LOG_TOKEN <;> rfl
  · intro call hcall r hr
    simp only [List.mem_cons, List.mem_singleton, List.not_mem_nil, or_false] at hcall
    rcases hcall with rfl | rfl | rfl | rfl <;>
      rcases hr with ⟨k, hk⟩ | ⟨t, hk⟩ | ⟨t, hk⟩ | ⟨t, hk⟩ <;>
      first
        | cases hk; rfl
        | cases hk

/-- C7 at an environment that sets both logging variables. -/
theorem single_logger_threaded_witness :
    server sampleCollaborators loggedEnv = .ok loggedBoot ∧
    loggedBoot.calls.filter Call.isNewLogger
      = [.newLogger ⟨.str "http://logs.example", .str "secret"⟩
          ⟨0, ⟨.str "http://logs.example", .str "secret"⟩⟩] ∧
    ∃ cfg lg rl rt el,
      cfg.baseUrl = (match loggedEnv.LOG_BASE_URL with
        | some u => .str u | none => .undefined) ∧
      cfg.token = (match loggedEnv.LOG_TOKEN with
        | some t => .str t | none => .undefined) ∧
      sampleCollaborators.newLogger cfg = .ok lg.obj ∧
      loggedBoot.calls.filter Call.isNewLogger = [.newLogger cfg lg] ∧
      (∀ call ∈ loggedBoot.calls, ∀ r,
        (∃ k, call = .newLogger k r) ∨ (∃ tag, call = .requestLogger r tag) ∨
        (∃ base, call = .routes r base) ∨ (∃ tag, call = .errorLogger r tag) → r = lg) ∧
      loggedBoot.calls = [.newLogger cfg lg, .requestLogger lg "url-shortener",
                 .routes lg (hostBase loggedEnv), .errorLogger lg "url-shortener"] ∧
      sampleCollaborators.requestLogger lg.obj "url-shortener" = .ok rl ∧
      sampleCollaborators.routes lg.obj (hostBase loggedEnv) = .ok rt ∧
      sampleCollaborators.errorLogger lg.obj "url-shortener" = .ok el ∧
      loggedBoot.app = [⟨.jsonParser, "/", .request sampleCollaborators.json⟩,
               ⟨.requestLogger, "/", .request rl⟩,
               ⟨.router, "/", .request rt⟩, ⟨.errorLogger, "/", .error el⟩] :=
  ⟨rfl, by decide, single_logger_threaded sampleCollaborators loggedEnv loggedBoot rfl⟩

/-- C8: with `LOG_BASE_URL` or `LOG_TOKEN` absent, start-up still reaches
`app.listen` with the resolved port: always so with the logging and router
modules as the specification describes them, and with any modules whose four
calls return, since the script itself checks nothing. -/
theorem startup_survives_missing_log_config {L σ ε : Type}
    (json component : World → World × Outcome String) (env : Env)
    (habsent : env.LOG_BASE_URL = none ∨ env.LOG_TOKEN = none) :
    (∃ b, server (specCollaborators json component) env = .ok b ∧
      b.listenPort = resolvedPort env) ∧
    (∀ (c : Collaborators L σ ε) lg rl rt el,
      c.newLogger ⟨envValue env.LOG_BASE_URL, envValue env.LOG_TOKEN⟩ = .ok lg →
      c.requestLogger lg "url-shortener" = .ok rl →
      c.routes lg (hostBase env) = .ok rt →
      c.errorLogger lg "url-shortener" = .ok el →
      ∃ b, server c env = .ok b ∧ b.listenPort = resolvedPort env) := by
  have _ := habsent
  constructor
  · refine ⟨_, (server_eq_ok_iff _ env _).2 ⟨_, _, _, _, rfl, rfl, rfl, rfl, rfl⟩, ?_⟩
    exact port_eq_resolvedPort env
  · intro c lg rl rt el h1 h2 h3 h4
    refine ⟨_, (server_eq_ok_iff c env _).2 ⟨lg, rl, rt, el, h1, h2, h3, h4, rfl⟩, ?_⟩
    exact port_eq_resolvedPort env

/-- C8 at the empty environment: both logging variables absent, the script
reaches the listener with port 3000. -/
theorem startup_survives_missing_log_config_witness :
    (emptyEnv.LOG_BASE_URL = none ∨ emptyEnv.LOG_TOKEN = none) ∧
    ∃ b, server (specCollaborators sampleJson sampleRouter) emptyEnv = .ok b ∧
      b.listenPort = resolvedPort emptyEnv :=
  ⟨Or.inl rfl,
   (startup_survives_missing_log_config (L := Logger) (σ := World) (ε := String)
      sampleJson sampleRouter emptyEnv (Or.inl rfl)).1⟩

/-! ## Pipeline claims -/

/-- C1: the stack is body parser, request logger, router, error logger, in
that order; whenever the router runs for a request, the request logger has
run exactly once for it, and before the router: the walk starts body parser,
request logger, router. -/
theorem requestLogger_once_before_router {L σ ε : Type} (c : Collaborators L σ ε)
    (env : Env) (b : Boot L σ ε) (hb : server c env = .ok b) (reqPath : String) (s : σ)
    (hrouter : .router ∈ (b.app.handleRequest reqPath s).stages) :
    b.app.map Layer.name = [.jsonParser, .requestLogger, .router, .errorLogger] ∧
    (b.app.handleRequest reqPath s).stages.count .requestLogger = 1 ∧
    (b.app.handleRequest reqPath s).stages.count .router = 1 ∧
    ∃ post, (b.app.handleRequest reqPath s).stages
        = .jsonParser :: .requestLogger :: .router :: post ∧
      .requestLogger ∉ post ∧ .router ∉ post := by
  obtain ⟨lg, rl, rt, el, -, -, -, -, rfl⟩ := (server_eq_ok_iff c env b).1 hb
  refine ⟨rfl, ?_⟩
  simp only [Run.stages] at hrouter ⊢
  rcases pipeline_trace_cases c.json rl rt el reqPath s with
    ⟨-, h⟩ | ⟨e, o, -, h⟩ | ⟨-, h⟩ | ⟨e, o, -, h⟩ | ⟨-, h⟩ | ⟨e, o, -, h⟩ | ⟨-, h⟩ <;>
    rw [h] at hrouter ⊢ <;> simp at hrouter ⊢

/-- C1 at a well-formed request in the empty environment. -/
theorem requestLogger_once_before_router_witness :
    server sampleCollaborators emptyEnv = .ok emptyBoot ∧
    .router ∈ (emptyBoot.app.handleRequest "/shorturls" goodRequest).stages ∧
    (emptyBoot.app.handleRequest "/shorturls" goodRequest).stages.count .requestLogger = 1 :=
  ⟨rfl, by decide,
   (requestLogger_once_before_router sampleCollaborators emptyEnv emptyBoot rfl
      "/shorturls" goodRequest (by decide)).2.1⟩

/-- C2, as stated, fails: a request whose JSON body the body parser rejects
never reaches the request logger; only the error logger runs after the body
parser. -/
theorem requestLogger_skipped_on_rejected_body :
    server sampleCollaborators emptyEnv = .ok emptyBoot ∧
    (sampleCollaborators.json badRequest).2 = .fail "SyntaxError" ∧
    (emptyBoot.app.handleRequest "/shorturls" badRequest).stages
      = [.jsonParser, .errorLogger] ∧
    .requestLogger ∉ (emptyBoot.app.handleRequest "/shorturls" badRequest).stages :=
  ⟨rfl, rfl, by decide, by decide⟩

/-- C2, amended: for every request the body parser passes on, the request
logger runs right after the body parser and before any route handling; for
a request the body parser rejects with an error, neither the request logger
nor the router runs, and the error logger receives that error. -/
theorem requestLogger_after_body_accepted {L σ ε : Type} (c : Collaborators L σ ε)
    (env : Env) (b : Boot L σ ε) (hb : server c env = .ok b) (reqPath : String) (s : σ) :
    ((c.json s).2 = .next →
      ∃ post, (b.app.handleRequest reqPath s).stages
          = .jsonParser :: .requestLogger :: post ∧ .requestLogger ∉ post) ∧
    (∀ e, (c.json s).2 = .fail e →
      ∃ o, (b.app.handleRequest reqPath s).trace
          = [⟨.jsonParser, none, .fail e⟩, ⟨.errorLogger, some e, o⟩]) := by
  obtain ⟨lg, rl, rt, el, -, -, -, -, rfl⟩ := (server_eq_ok_iff c env b).1 hb
  simp only [Run.stages]
  rcases pipeline_trace_cases c.json rl rt el reqPath s with
    ⟨hj, h⟩ | ⟨e, o, hj, h⟩ | ⟨hj, h⟩ | ⟨e, o, hj, h⟩ | ⟨hj, h⟩ | ⟨e, o, hj, h⟩ | ⟨hj, h⟩ <;>
    rw [h, hj] <;> simp

/-- The amended C2 at a well-formed and at a malformed request. -/
theorem requestLogger_after_body_accepted_witness :
    server sampleCollaborators emptyEnv = .ok emptyBoot ∧
    (sampleCollaborators.json goodRequest).2 = .next ∧
    (∃ post, (emptyBoot.app.handleRequest "/shorturls" goodRequest).stages
        = .jsonParser :: .requestLogger :: post ∧ .requestLogger ∉ post) ∧
    (sampleCollaborators.json badRequest).2 = .fail "SyntaxError" ∧
    (∃ o, (emptyBoot.app.handleRequest "/shorturls" badRequest).trace
        = [⟨.jsonParser, none, .fail "SyntaxError"⟩,
           ⟨.errorLogger, some "SyntaxError", o⟩]) :=
  ⟨rfl, rfl,
   (requestLogger_after_body_accepted sampleCollaborators emptyEnv emptyBoot rfl
      "/shorturls" goodRequest).1 rfl,
   rfl,
   (requestLogger_after_body_accepted sampleCollaborators emptyEnv emptyBoot rfl
      "/shorturls" badRequest).2 "SyntaxError" rfl⟩

/-- C3: the error logger is the last layer of the stack and its only error
middleware; when an earlier stage raises an error, the error logger is the
next stage invoked, with that error, and is invoked exactly once, no other
stage being invoked with a pending error; when no earlier stage raises an
error, the error logger is not invoked. -/
theorem errorLogger_terminal_once {L σ ε : Type} (c : Collaborators L σ ε)
    (env : Env) (b : Boot L σ ε) (hb : server c env = .ok b) (reqPath : String) (s : σ) :
    (∃ l, b.app.getLast? = some l ∧ l.name = .errorLogger ∧ l.handle.isError = true) ∧
    (∀ l ∈ b.app, l.handle.isError = true → l.name = .errorLogger) ∧
    (∀ e, (∃ ev ∈ (b.app.handleRequest reqPath s).trace,
            ev.stage ≠ .errorLogger ∧ ev.outcome = .fail e) →
      (b.app.handleRequest reqPath s).stages.count .errorLogger = 1 ∧
      ∃ pre st o, (b.app.handleRequest reqPath s).trace
          = pre ++ [⟨st, none, .fail e⟩, ⟨.errorLogger, some e, o⟩] ∧
        st ≠ .errorLogger ∧
        ∀ ev ∈ pre, ev.stage ≠ .errorLogger ∧ ev.error = none ∧ ev.outcome = .next) ∧
    ((∀ ev ∈ (b.app.handleRequest reqPath s).trace,
        ev.stage ≠ .errorLogger → ∀ e, ev.outcome ≠ .fail e) →
      .errorLogger ∉ (b.app.handleRequest reqPath s).stages) := by
  obtain ⟨lg, rl, rt, el, -, -, -, -, rfl⟩ := (server_eq_ok_iff c env b).1 hb
  refine ⟨⟨_, rfl, rfl, rfl⟩, ?_, ?_, ?_⟩
  · intro l hl
    simp only [pipeline, List.mem_cons, List.mem_singleton, List.not_mem_nil, or_false] at hl
    rcases hl with rfl | rfl | rfl | rfl <;> simp [Middleware.isError]
  · intro e0 hex
    simp only [Run.stages]
    rcases pipeline_trace_cases c.json rl rt el reqPath s with
      ⟨-, h⟩ | ⟨e, o, -, h⟩ | ⟨-, h⟩ | ⟨e, o, -, h⟩ | ⟨-, h⟩ | ⟨e, o, -, h⟩ | ⟨-, h⟩ <;>
      rw [h] at hex ⊢
    · simp at hex
    · have he : e = e0 := by simpa using hex
      subst he
      exact ⟨by simp, [], .jsonParser, o, rfl, by simp, by simp⟩
    · simp at hex
    · have he : e = e0 := by simpa using hex
      subst he
      exact ⟨by simp, [⟨.jsonParser, none, .next⟩], .requestLogger, o, rfl, by simp, by simp⟩
    · simp at hex
    · have he : e = e0 := by simpa using hex
      subst he
      exact ⟨by simp, [⟨.jsonParser, none, .next⟩, ⟨.requestLogger, none, .next⟩],
        .router, o, rfl, by simp, by simp⟩
    · simp at hex
  · intro hno
    simp only [Run.stages]
    rcases pipeline_trace_cases c.json rl rt el reqPath s with
      ⟨-, h⟩ | ⟨e, o, -, h⟩ | ⟨-, h⟩ | ⟨e, o, -, h⟩ | ⟨-, h⟩ | ⟨e, o, -, h⟩ | ⟨-, h⟩ <;>
      rw [h] at hno ⊢ <;> simp at hno ⊢

/-- C3 at a malformed request (the body parser raises, the error logger runs
once) and at a well-formed one (it does not run). -/
theorem errorLogger_terminal_once_witness :
    server sampleCollaborators emptyEnv = .ok emptyBoot ∧
    (emptyBoot.app.handleRequest "/shorturls" badRequest).stages.count .errorLogger = 1 ∧
    .errorLogger ∉ (emptyBoot.app.handleRequest "/shorturls" goodRequest).stages :=
  ⟨rfl,
   ((errorLogger_terminal_once sampleCollaborators emptyEnv emptyBoot rfl
      "/shorturls" badRequest).2.2.1 "SyntaxError"
        ⟨⟨.jsonParser, none, .fail "SyntaxError"⟩, by decide, by decide, rfl⟩).1,
   (errorLogger_terminal_once sampleCollaborators emptyEnv emptyBoot rfl
      "/shorturls" goodRequest).2.2.2 (by
        have ht : (emptyBoot.app.handleRequest "/shorturls" goodRequest).trace
            = [⟨.jsonParser, none, .next⟩, ⟨.requestLogger, none, .next⟩,
               ⟨.router, none, .done⟩] := by decide
        rw [ht]
        simp)⟩

end UrlShortener
